import Mathlib

/-!
# Verification of the dealer-check availability engine (src/app.js)

A shallow embedding of the dealer-availability logic of `src/app.js`:
the availability engine `checkAvailability`, the population fallback in
`getCityPopulation`, the occupancy-registry lookup and its administrator
CRUD actions, the city-list loading ladder `loadAllCities`, and the map
aggregation `getMapData`.  JavaScript numbers are modelled exactly
(integers plus `NaN` and signed infinities, with exact arithmetic in
place of IEEE rounding); fallible JS values flow through `Option`.
-/

namespace DealerCheck

/-- A JavaScript number as it occurs in this program: `NaN`, a signed
infinity, or an (exact) integer.  All numeric values reaching the engine
come from `parseInt` or integer literals, so no finite non-integers occur. -/
inductive JsNum where
  | nan : JsNum
  | inf : Bool → JsNum   -- `inf true` is `+Infinity`, `inf false` is `-Infinity`
  | int : Int → JsNum
deriving DecidableEq, Repr

/-- JS `a < b`: any comparison with `NaN` is `false`; infinities compare
as extended reals; integers compare exactly. -/
def jsLt : JsNum → JsNum → Bool
  | .nan, _ => false
  | _, .nan => false
  | .int a, .int b => decide (a < b)
  | .inf true, _ => false
  | .int _, .inf b => b
  | .inf false, .inf b => b
  | .inf false, .int _ => true

/-- JS `a >= b`: `false` whenever `NaN` is involved, otherwise the
extended-real order. -/
def jsGe : JsNum → JsNum → Bool
  | .nan, _ => false
  | _, .nan => false
  | .int a, .int b => decide (b ≤ a)
  | .inf true, _ => true
  | .int _, .inf b => !b
  | .inf false, .inf b => !b
  | .inf false, .int _ => false

/-- JS `a - b` (exact: no rounding on the integer fragment). -/
def jsSub : JsNum → JsNum → JsNum
  | .nan, _ => .nan
  | _, .nan => .nan
  | .int a, .int b => .int (a - b)
  | .inf p, .int _ => .inf p
  | .int _, .inf q => .inf (!q)
  | .inf p, .inf q => if p = q then .nan else .inf p

/-- JS `Math.floor(a / b)`.  Division by zero follows JS: `0/0 = NaN` and
`a/0 = ±Infinity` (zero is `+0`, so the sign is the sign of `a`);
`Math.floor` is floor division towards `-∞` on finite values (`Int.fdiv`)
and fixes `NaN` and the infinities. -/
def jsDivFloor : JsNum → JsNum → JsNum
  | .nan, _ => .nan
  | _, .nan => .nan
  | .int a, .int b =>
      if b = 0 then (if a = 0 then .nan else .inf (decide (0 < a)))
      else .int (Int.fdiv a b)
  | .inf p, .int b => .inf (p = decide (0 ≤ b))
  | .int _, .inf _ => .int 0
  | .inf _, .inf _ => .nan

/-- The whitespace characters `parseInt` skips before reading digits. -/
def isJsSpace (c : Char) : Bool :=
  c = ' ' || c = '\t' || c = '\n' || c = '\r' || c = '\x0b' || c = '\x0c'

/-- Value of a list of decimal digit characters, most significant first. -/
def digitsToNat (ds : List Char) : Nat :=
  ds.foldl (fun acc c => acc * 10 + (c.toNat - '0'.toNat)) 0

/-- JS `parseInt(s)` with the default radix as this program uses it
(its inputs never carry a hex prefix): skip leading whitespace, read an
optional sign, then the longest leading run of decimal digits; if that
run is empty the result is `NaN`. -/
def parseIntJS (s : String) : JsNum :=
  let cs := s.toList.dropWhile isJsSpace
  let signed : Bool × List Char :=
    match cs with
    | '-' :: t => (true, t)
    | '+' :: t => (false, t)
    | _ => (false, cs)
  let ds := signed.2.takeWhile (fun c => decide ('0' ≤ c) && decide (c ≤ '9'))
  if ds.isEmpty then .nan
  else .int ((if signed.1 then -1 else 1) * (digitsToNat ds : Int))

/-- JS `toLowerCase()` as applied to UF codes (character-wise ASCII
lowercasing; UF codes contain only ASCII letters). -/
def jsToLower (s : String) : String := String.mk (s.data.map Char.toLower)

/-- One entry of `state.config.occupiedCities`: `{ city, uf, dealers }` as
stored by the admin form (the `dealers` field is the raw input string). -/
structure OccupiedCity where
  city : String
  uf : String
  dealers : String
deriving DecidableEq, Repr

/-- `state.selectedLocation` as far as the engine reads it:
`{ city, uf, population }`. -/
structure SelectedLocation where
  city : String
  uf : String
  population : JsNum
deriving DecidableEq, Repr

/-- The values `checkAvailability` hands to `showResult`:
`(isAvailable, city, uf, population, currentDealers, maxDealers)`. -/
structure AvailabilityResult where
  isAvailable : Bool
  city : String
  uf : String
  population : JsNum
  currentDealers : JsNum
  maxDealers : JsNum
deriving DecidableEq, Repr

/-- `remainingSlots` as the spec defines it on a result:
`maxDealers - currentDealers`. -/
def AvailabilityResult.remainingSlots (r : AvailabilityResult) : JsNum :=
  jsSub r.maxDealers r.currentDealers

/-- The registry lookup inside `checkAvailability`:
`occupiedCities.find(item => item.city === city && item.uf === uf)`. -/
def findOccupied (occ : List OccupiedCity) (city uf : String) : Option OccupiedCity :=
  occ.find? (fun item => item.city == city && item.uf == uf)

/-- `currentDealers = occupiedData ? parseInt(occupiedData.dealers) : 0`. -/
def currentDealersOf (occ : List OccupiedCity) (city uf : String) : JsNum :=
  match findOccupied occ city uf with
  | some d => parseIntJS d.dealers
  | none => .int 0

/-- `checkAvailability` (src/app.js:453-465): look the selected location
up in the occupancy registry, compute
`maxDealers = Math.floor(population / densityRule)`, classify with
`currentDealers < maxDealers`, and pass everything to `showResult`. -/
def checkAvailability (occ : List OccupiedCity) (densityRule : JsNum)
    (loc : SelectedLocation) : AvailabilityResult :=
  let currentDealers := currentDealersOf occ loc.city loc.uf
  let maxDealers := jsDivFloor loc.population densityRule
  let isAvailable := jsLt currentDealers maxDealers
  ⟨isAvailable, loc.city, loc.uf, loc.population, currentDealers, maxDealers⟩

/-! ## Population provider (`getCityPopulation`, src/app.js:439-450) -/

/-- The observable outcome of the IBGE population fetch as
`getCityPopulation` discriminates it: either the fetch / JSON parse threw,
or it produced a response in which the optional chain
`data[0]?.resultados[0]?.series[0]?.serie` gives `undefined` (or another
falsy value), or a truthy `serie` object whose `Object.values` list is
`values`. -/
inductive FetchOutcome where
  | thrown : FetchOutcome
  | ok : Option (List String) → FetchOutcome
deriving DecidableEq, Repr

/-- `getCityPopulation` (src/app.js:439-450): on a truthy `serie` it
returns `parseInt(Object.values(serie)[0])` (`NaN` when the series is
empty or its first value is non-numeric, since `parseInt(undefined)` is
`NaN`); otherwise — missing/falsy `serie` or a thrown error — it returns
the hardcoded fallback `50000`. -/
def getCityPopulation : FetchOutcome → JsNum
  | .thrown => .int 50000
  | .ok none => .int 50000
  | .ok (some values) =>
      match values.head? with
      | some v => parseIntJS v
      | none => .nan

/-! ## Map aggregation (`getMapData`, src/app.js:178-198) -/

/-- `parseInt(item.dealers) || 0`: a `NaN` dealer count contributes `0`. -/
def dealersOr0 (s : String) : Int :=
  match parseIntJS s with
  | .int n => n
  | _ => 0

/-- `counts[key] += dealers` on the plain-object accumulator: bump the
entry for `key` if present, else append a fresh entry (JS objects keep
insertion order). -/
def addCount : List (String × Int) → String → Int → List (String × Int)
  | [], key, d => [(key, d)]
  | (k, v) :: rest, key, d =>
      if k = key then (k, v + d) :: rest else (k, v) :: addCount rest key d

/-- The `counts` object after the `forEach` over `occupiedCities`:
each record contributes `parseInt(item.dealers) || 0` under the key
`br-` + lowercased UF. -/
def buildCounts (occ : List OccupiedCity) : List (String × Int) :=
  occ.foldl (fun cs item => addCount cs ("br-" ++ jsToLower item.uf) (dealersOr0 item.dealers)) []

/-- `counts[key] || 0`: the stored count, or `0` when the key is absent. -/
def lookupOr0 (cs : List (String × Int)) (key : String) : Int :=
  match cs.find? (fun p => p.1 == key) with
  | some p => p.2
  | none => 0

/-- The fixed `allKeys` list of `getMapData`: the 27 Highcharts keys of
the Brazilian UFs, in source order. -/
def ufKeys : List String :=
  ["br-ac", "br-al", "br-ap", "br-am", "br-ba", "br-ce", "br-df", "br-es", "br-go", "br-ma",
   "br-mt", "br-ms", "br-mg", "br-pa", "br-pb", "br-pr", "br-pe", "br-pi", "br-rj", "br-rn",
   "br-rs", "br-ro", "br-rr", "br-sc", "br-sp", "br-se", "br-to"]

/-- `getMapData` (src/app.js:178-198): aggregate dealer counts per UF and
emit one `{ hc-key, value }` pair for each of the 27 keys, defaulting to 0. -/
def getMapData (occ : List OccupiedCity) : List (String × Int) :=
  ufKeys.map (fun key => (key, lookupOr0 (buildCounts occ) key))

/-! ## Administrator CRUD over the occupancy registry
(`addOccupied` click handler src/app.js:672-692, `removeOccupied`
src/app.js:616-620) -/

/-- The `findIndex`/in-place-update/push body of the add handler: replace
the `dealers` field of the first record whose `(city, uf)` matches
exactly, or append a new record when none matches. -/
def upsertOccupied (city uf dealers : String) : List OccupiedCity → List OccupiedCity
  | [] => [⟨city, uf, dealers⟩]
  | item :: rest =>
      if item.city == city && item.uf == uf then
        { item with dealers := dealers } :: rest
      else
        item :: upsertOccupied city uf dealers rest

/-- The `addOccupied` click handler (src/app.js:672-692): with all three
fields truthy (non-empty), upsert the record; otherwise leave the
registry unchanged (the handler only shows a toast). -/
def addOccupied (occ : List OccupiedCity) (city uf dealers : String) : List OccupiedCity :=
  if city.isEmpty || uf.isEmpty || dealers.isEmpty then occ
  else upsertOccupied city uf dealers occ

/-- `removeOccupied` (src/app.js:616-620): `splice(index, 1)` — drop the
record at `index`, a no-op when the index is out of range. -/
def removeOccupied (occ : List OccupiedCity) (index : Nat) : List OccupiedCity :=
  occ.eraseIdx index

/-- The `(city, uf)` keys of the registry, in order. -/
def registryKeys (occ : List OccupiedCity) : List (String × String) :=
  occ.map (fun item => (item.city, item.uf))

/-- The registry is uniquely keyed: no two records share an exact
`(city, uf)` pair. -/
abbrev UniqueKeys (occ : List OccupiedCity) : Prop :=
  (registryKeys occ).Nodup

/-! ## City-list loading ladder (`loadAllCities` src/app.js:209-260,
`useFallbackCities` src/app.js:262-308) -/

/-- One cached city entry `{ name, uf, id }`. -/
structure City where
  name : String
  uf : String
  id : Nat
deriving DecidableEq, Repr

/-- `maxRetries` in `loadAllCities`. -/
def maxRetries : Nat := 3

/-- The backoff passed to `setTimeout` after every failed API attempt,
in milliseconds. -/
def retryBackoffMs : Nat := 1000

/-- The hardcoded last-resort list of `useFallbackCities`
(src/app.js:262-308). -/
def fallbackCities : List City :=
  [⟨"São Paulo", "SP", 3550308⟩, ⟨"Rio de Janeiro", "RJ", 3304557⟩,
   ⟨"Brasília", "DF", 5300108⟩, ⟨"Salvador", "BA", 2927408⟩,
   ⟨"Fortaleza", "CE", 2304400⟩, ⟨"Belo Horizonte", "MG", 3106200⟩,
   ⟨"Manaus", "AM", 1302603⟩, ⟨"Curitiba", "PR", 4106902⟩,
   ⟨"Recife", "PE", 2611606⟩, ⟨"Goiânia", "GO", 5208707⟩,
   ⟨"Belém", "PA", 1501402⟩, ⟨"Porto Alegre", "RS", 4314902⟩,
   ⟨"Guarulhos", "SP", 3518800⟩, ⟨"Campinas", "SP", 3509502⟩,
   ⟨"São Luís", "MA", 2111300⟩, ⟨"São Gonçalo", "RJ", 3304904⟩,
   ⟨"Maceió", "AL", 2704302⟩, ⟨"Duque de Caxias", "RJ", 3301702⟩,
   ⟨"Campo Grande", "MS", 5002704⟩, ⟨"Natal", "RN", 2408102⟩,
   ⟨"Teresina", "PI", 2211001⟩, ⟨"São Bernardo do Campo", "SP", 3548708⟩,
   ⟨"João Pessoa", "PB", 2507507⟩, ⟨"Nova Iguaçu", "RJ", 3303500⟩,
   ⟨"Santo André", "SP", 3547809⟩, ⟨"Osasco", "SP", 3534401⟩,
   ⟨"São José dos Campos", "SP", 3549904⟩, ⟨"Jaboatão dos Guararapes", "PE", 2607901⟩,
   ⟨"Ribeirão Preto", "SP", 3543402⟩, ⟨"Uberlândia", "MG", 3170206⟩,
   ⟨"Sorocaba", "SP", 3552205⟩, ⟨"Contagem", "MG", 3118601⟩,
   ⟨"Aracaju", "SE", 2800308⟩, ⟨"Feira de Santana", "BA", 2910800⟩,
   ⟨"Cuiabá", "MT", 5103403⟩, ⟨"Joinville", "SC", 4209102⟩,
   ⟨"Florianópolis", "SC", 4205407⟩, ⟨"Londrina", "PR", 4113700⟩,
   ⟨"Juiz de Fora", "MG", 3136702⟩, ⟨"Niterói", "RJ", 3303302⟩]

/-- The `while (attempt < maxRetries)` loop of `loadAllCities`, given the
outcome of each API attempt (`none` = that attempt threw or was `!ok`).
Returns the list of backoff delays awaited (one 1000 ms sleep after every
failed attempt) together with the resulting city list; exhausting the
attempts lands in `useFallbackCities`. -/
def apiLoop (attemptResult : Nat → Option (List City)) (attempt : Nat) :
    List Nat × List City :=
  if _h : attempt < maxRetries then
    match attemptResult attempt with
    | some cities => ([], cities)
    | none =>
        let rest := apiLoop attemptResult (attempt + 1)
        (retryBackoffMs :: rest.1, rest.2)
  else
    ([], fallbackCities)
termination_by maxRetries - attempt
decreasing_by omega

/-- `loadAllCities` (src/app.js:209-260): try the local `cities.json`
first; on failure run the API retry loop from attempt 0. -/
def loadAllCities (localResult : Option (List City))
    (attemptResult : Nat → Option (List City)) : List Nat × List City :=
  match localResult with
  | some cities => ([], cities)
  | none => apiLoop attemptResult 0

/-- The prioritized-source-chain reading of the spec: the first
successful source in the list wins. -/
def firstSuccess (sources : List (Option (List City))) : Option (List City) :=
  sources.findSome? id

/-! ## The oldest variant's exclusivity-aware engine

The exclusivity rule appears in the spec's §4.1 contract
(`evaluate(population, currentDealers, densityRule, exclusivity?)`) but
its variant of the engine is not part of src/app.js, so it is modelled
from the spec here. -/

/-- Modelled from the spec: §3 `ExclusivityRule` — `validUntil` as a day
index, `none` meaning permanent exclusivity (the `city`/`uf` key is
resolved by the caller, which passes the rule for the evaluated
location). The missing code is the oldest variant's exclusivity-aware
`evaluate`. -/
structure ExclusivityRule where
  validUntil : Option Int
deriving DecidableEq, Repr

/-- Modelled from the spec: an exclusivity rule is currently active when
it has no `validUntil`, or `validUntil >= today` at day granularity
(inclusive boundary). -/
def exclusivityActive (today : Int) (r : ExclusivityRule) : Bool :=
  match r.validUntil with
  | none => true
  | some d => decide (today ≤ d)

/-- Modelled from the spec: the generic reason string returned on an
active exclusivity block; it is a constant, so it carries no expiry date. -/
def exclusivityReason : String := "location under exclusivity agreement"

/-- Modelled from the spec: the reason of step 5 of §4.1. -/
def thresholdReason : String := "population threshold reached"

/-- Modelled from the spec: §3 `AvailabilityResult`
(`maxDealers` is absent on the exclusivity short-circuit, which returns
before step 2 computes it). -/
structure EvalResult where
  available : Bool
  maxDealers : Option Int
  currentDealers : Int
  remainingSlots : Option Int
  reason : Option String
deriving DecidableEq, Repr

/-- Modelled from the spec: steps 2-5 of §4.1 — the normal density rule. -/
def evalDensity (population currentDealers densityRule : Int) : EvalResult :=
  let maxDealers := Int.fdiv population densityRule
  let remainingSlots := maxDealers - currentDealers
  if 0 < remainingSlots then
    ⟨true, some maxDealers, currentDealers, some remainingSlots, none⟩
  else
    ⟨false, some maxDealers, currentDealers, none, some thresholdReason⟩

/-- Modelled from the spec: the §4.1 contract
`evaluate(population, currentDealers, densityRule, exclusivity?)` of the
oldest variant, which is not part of src/app.js.  Step 1: an exclusivity
rule that exists, is active today, and has `currentDealers > 0` returns
`unavailable` with the generic reason; otherwise the density rule
decides. -/
def evaluate (today : Int) (population currentDealers densityRule : Int)
    (excl : Option ExclusivityRule) : EvalResult :=
  match excl with
  | some r =>
      if exclusivityActive today r && decide (0 < currentDealers) then
        ⟨false, none, currentDealers, none, some exclusivityReason⟩
      else
        evalDensity population currentDealers densityRule
  | none => evalDensity population currentDealers densityRule

/-! ## Basic facts about the JS-number operations -/

theorem jsLt_nan_left (m : JsNum) : jsLt .nan m = false := by
  cases m <;> rfl

theorem jsLt_nan_right (c : JsNum) : jsLt c .nan = false := by
  cases c with
  | nan => rfl
  | inf b => cases b <;> rfl
  | int n => rfl

theorem jsDivFloor_nan_left (d : JsNum) : jsDivFloor .nan d = .nan := by
  cases d <;> rfl

/-- If JS says `c < m`, then JS also says `0 < m - c`. -/
theorem jsSub_pos_of_jsLt : ∀ {c m : JsNum}, jsLt c m = true →
    jsLt (.int 0) (jsSub m c) = true := by
  intro c m h
  cases c with
  | nan => simp [jsLt] at h
  | inf b =>
    cases m with
    | nan => simp [jsLt] at h
    | inf b' => cases b <;> cases b' <;> simp_all [jsLt, jsSub]
    | int a => cases b <;> simp_all [jsLt, jsSub]
  | int a =>
    cases m with
    | nan => simp [jsLt] at h
    | inf b' => cases b' <;> simp_all [jsLt, jsSub]
    | int a' =>
      simp only [jsLt, decide_eq_true_eq] at h
      simp only [jsSub, jsLt, decide_eq_true_eq]
      omega

/-- JS `a >= b` and `a < b` are never both true. -/
theorem jsLt_eq_false_of_jsGe : ∀ {a b : JsNum}, jsGe a b = true →
    jsLt a b = false := by
  intro a b h
  cases a with
  | nan => simp [jsGe] at h
  | inf p =>
    cases b with
    | nan => simp [jsGe] at h
    | inf q => cases p <;> cases q <;> simp_all [jsGe, jsLt]
    | int n => cases p <;> simp_all [jsGe, jsLt]
  | int n =>
    cases b with
    | nan => simp [jsGe] at h
    | inf q => cases q <;> simp_all [jsGe, jsLt]
    | int n' =>
      simp only [jsGe, decide_eq_true_eq] at h
      simp only [jsLt, decide_eq_false_iff_not, not_lt]
      omega

/-! ## Claims -/

/-- C1: every evaluation of the src engine (which has no exclusivity rule,
so none is ever active) classifies the location available exactly when
`currentDealers < maxDealers` in JS order; when available,
`remainingSlots = maxDealers - currentDealers` is positive; and whenever
`currentDealers >= maxDealers` the result is unavailable. -/
theorem checkAvailability_density_classification (occ : List OccupiedCity)
    (densityRule : JsNum) (loc : SelectedLocation) :
    ((checkAvailability occ densityRule loc).isAvailable
        = jsLt (checkAvailability occ densityRule loc).currentDealers
            (checkAvailability occ densityRule loc).maxDealers)
    ∧ ((checkAvailability occ densityRule loc).isAvailable = true →
        jsLt (.int 0) (checkAvailability occ densityRule loc).remainingSlots = true)
    ∧ (jsGe (checkAvailability occ densityRule loc).currentDealers
          (checkAvailability occ densityRule loc).maxDealers = true →
        (checkAvailability occ densityRule loc).isAvailable = false) := by
  refine ⟨rfl, ?_, ?_⟩
  · intro h
    exact jsSub_pos_of_jsLt h
  · intro h
    exact jsLt_eq_false_of_jsGe h

/-- C1 witness: the spec's own scenarios — population 100000, density
5000, 15 dealers is available with positive remaining slots; population
30000, density 5000, 6 dealers has `currentDealers >= maxDealers` and is
unavailable. -/
theorem checkAvailability_density_classification_witness :
    jsLt (.int 0)
      (checkAvailability [⟨"Campinas", "SP", "15"⟩] (.int 5000)
        ⟨"Campinas", "SP", .int 100000⟩).remainingSlots = true
    ∧ (checkAvailability [⟨"Sorocaba", "SP", "6"⟩] (.int 5000)
        ⟨"Sorocaba", "SP", .int 30000⟩).isAvailable = false :=
  ⟨(checkAvailability_density_classification _ _ _).2.1 (by decide),
   (checkAvailability_density_classification _ _ _).2.2 (by decide)⟩

/-- C2: for positive population and density rule, the engine's
`maxDealers` is an integer equal to `⌊population / densityRule⌋` (shown
both by the integer floor bounds and as the rational floor), and it is
nonnegative. -/
theorem checkAvailability_maxDealers_floor (occ : List OccupiedCity)
    (loc : SelectedLocation) (p dr : Int) (hpop : loc.population = .int p)
    (hp : 0 < p) (hdr : 0 < dr) :
    ∃ m : Int, (checkAvailability occ (.int dr) loc).maxDealers = .int m
      ∧ 0 ≤ m ∧ m * dr ≤ p ∧ p < (m + 1) * dr
      ∧ ⌊(p : ℚ) / (dr : ℚ)⌋ = m := by
  have hdr0 : dr ≠ 0 := by omega
  have hfd : Int.fdiv p dr = p / dr := Int.fdiv_eq_ediv p (le_of_lt hdr)
  refine ⟨Int.fdiv p dr, ?_, ?_, ?_, ?_, ?_⟩
  · show jsDivFloor loc.population (.int dr) = _
    rw [hpop]
    simp [jsDivFloor, hdr0]
  · exact Int.fdiv_nonneg (le_of_lt hp) (le_of_lt hdr)
  · rw [hfd]
    exact Int.ediv_mul_le p hdr0
  · rw [hfd]
    exact Int.lt_ediv_add_one_mul_self p hdr
  · rw [hfd, Int.floor_eq_iff]
    have hdrQ : (0 : ℚ) < (dr : ℚ) := by exact_mod_cast hdr
    constructor
    · rw [le_div_iff₀ hdrQ]
      exact_mod_cast Int.ediv_mul_le p hdr0
    · rw [div_lt_iff₀ hdrQ]
      exact_mod_cast Int.lt_ediv_add_one_mul_self p hdr

/-- C2 witness: population 100000, density rule 5000 gives
`maxDealers = 20`. -/
theorem checkAvailability_maxDealers_floor_witness :
    ∃ m : Int, (checkAvailability [] (.int 5000)
        ⟨"Campinas", "SP", .int 100000⟩).maxDealers = .int m
      ∧ 0 ≤ m ∧ m * 5000 ≤ 100000 ∧ (100000 : Int) < (m + 1) * 5000
      ∧ ⌊(100000 : ℚ) / (5000 : ℚ)⌋ = m :=
  checkAvailability_maxDealers_floor [] ⟨"Campinas", "SP", .int 100000⟩
    100000 5000 rfl (by decide) (by decide)

/-- C3: the registry lookup only ever returns a record whose `(city, uf)`
is literally (code-point for code-point) the queried pair; a lookup miss
makes the evaluation run with `currentDealers = 0`; and neither
case-folding nor diacritic stripping is applied — a record differing only
in letter case, or only by a diacritic, is not found. -/
theorem findOccupied_exact_match :
    (∀ (occ : List OccupiedCity) (city uf : String) (r : OccupiedCity),
        findOccupied occ city uf = some r → r.city = city ∧ r.uf = uf)
    ∧ (∀ (occ : List OccupiedCity) (d : JsNum) (loc : SelectedLocation),
        findOccupied occ loc.city loc.uf = none →
        (checkAvailability occ d loc).currentDealers = .int 0)
    ∧ findOccupied [⟨"SÃO PAULO", "SP", "3"⟩] "São Paulo" "SP" = none
    ∧ findOccupied [⟨"Sao Paulo", "SP", "3"⟩] "São Paulo" "SP" = none := by
  refine ⟨?_, ?_, by decide, by decide⟩
  · intro occ city uf r h
    have hp := List.find?_some h
    simp only [Bool.and_eq_true, beq_iff_eq] at hp
    exact hp
  · intro occ d loc h
    show currentDealersOf occ loc.city loc.uf = .int 0
    unfold currentDealersOf
    rw [h]

/-- C3 witness: an exactly matching record is returned with the queried
key, and on the diacritic-variant registry the evaluation defaults to
`currentDealers = 0`. -/
theorem findOccupied_exact_match_witness :
    ((⟨"Niterói", "RJ", "2"⟩ : OccupiedCity).city = "Niterói"
      ∧ (⟨"Niterói", "RJ", "2"⟩ : OccupiedCity).uf = "RJ")
    ∧ (checkAvailability [⟨"Sao Paulo", "SP", "3"⟩] (.int 5000)
        ⟨"São Paulo", "SP", .int 100000⟩).currentDealers = .int 0 :=
  ⟨findOccupied_exact_match.1 [⟨"Niterói", "RJ", "2"⟩] "Niterói" "RJ" _ (by decide),
   findOccupied_exact_match.2.1 [⟨"Sao Paulo", "SP", "3"⟩] (.int 5000)
     ⟨"São Paulo", "SP", .int 100000⟩ (by decide)⟩

/-- C4 counterexample: a response that reaches a truthy `serie` whose
first value is non-numeric is a malformed / failed lookup, yet
`getCityPopulation` returns `parseInt`'s `NaN`, not the 50000 fallback
the claim promises. -/
theorem getCityPopulation_nan_counterexample :
    getCityPopulation (.ok (some ["unavailable data"])) = .nan
    ∧ getCityPopulation (.ok (some ["unavailable data"])) ≠ .int 50000 := by
  constructor
  · rfl
  · decide

/-- C4 (amended): when the population fetch throws, or the data-series
path yields no truthy `serie`, the population is the hardcoded 50000 and
the evaluation proceeds exactly as with an ordinary population of 50000;
when a truthy `serie` is present but its first value is missing or
non-numeric, `parseInt` yields `NaN` instead of the fallback and the
evaluation then classifies the location unavailable. -/
theorem getCityPopulation_fallback (occ : List OccupiedCity) (d : JsNum)
    (city uf : String) :
    getCityPopulation .thrown = .int 50000
    ∧ getCityPopulation (.ok none) = .int 50000
    ∧ checkAvailability occ d ⟨city, uf, getCityPopulation .thrown⟩
        = checkAvailability occ d ⟨city, uf, .int 50000⟩
    ∧ (∀ values : List String, getCityPopulation (.ok (some values)) = .nan →
        (checkAvailability occ d ⟨city, uf, getCityPopulation (.ok (some values))⟩).isAvailable
          = false) := by
  refine ⟨rfl, rfl, rfl, ?_⟩
  intro values hnan
  show jsLt _ (jsDivFloor (getCityPopulation (.ok (some values))) d) = false
  rw [hnan, jsDivFloor_nan_left, jsLt_nan_right]

/-- C4 witness: a thrown fetch evaluates exactly like population 50000,
and an empty `serie` (whose first value is `undefined`) classifies
unavailable. -/
theorem getCityPopulation_fallback_witness :
    checkAvailability [] (.int 5000) ⟨"Osasco", "SP", getCityPopulation .thrown⟩
      = checkAvailability [] (.int 5000) ⟨"Osasco", "SP", .int 50000⟩
    ∧ (checkAvailability [] (.int 5000)
        ⟨"Osasco", "SP", getCityPopulation (.ok (some []))⟩).isAvailable = false :=
  ⟨(getCityPopulation_fallback [] (.int 5000) "Osasco" "SP").2.2.1,
   (getCityPopulation_fallback [] (.int 5000) "Osasco" "SP").2.2.2 [] (by decide)⟩

/-- C6: the engine is deterministic and depends on nothing beyond its
inputs — two evaluations that agree on population, looked-up current
dealer count, and density rule produce the same classification,
whatever else differs (registry contents, location naming). -/
theorem checkAvailability_deterministic (occ₁ occ₂ : List OccupiedCity)
    (d : JsNum) (loc₁ loc₂ : SelectedLocation)
    (hpop : loc₁.population = loc₂.population)
    (hcur : currentDealersOf occ₁ loc₁.city loc₁.uf
      = currentDealersOf occ₂ loc₂.city loc₂.uf) :
    (checkAvailability occ₁ d loc₁).isAvailable
        = (checkAvailability occ₂ d loc₂).isAvailable
    ∧ (checkAvailability occ₁ d loc₁).currentDealers
        = (checkAvailability occ₂ d loc₂).currentDealers
    ∧ (checkAvailability occ₁ d loc₁).maxDealers
        = (checkAvailability occ₂ d loc₂).maxDealers := by
  refine ⟨?_, ?_, ?_⟩ <;> simp [checkAvailability, hpop, hcur]

/-- C6 witness: two registries that agree on the looked-up record (one
with an extra unrelated record, in a different order) classify alike. -/
theorem checkAvailability_deterministic_witness :
    (checkAvailability [⟨"Natal", "RN", "3"⟩] (.int 5000)
        ⟨"Natal", "RN", .int 100000⟩).isAvailable
      = (checkAvailability [⟨"Recife", "PE", "9"⟩, ⟨"Natal", "RN", "3"⟩] (.int 5000)
          ⟨"Natal", "RN", .int 100000⟩).isAvailable :=
  (checkAvailability_deterministic _ _ (.int 5000) _ _ rfl (by decide)).1

/-- C9: a matched occupancy record with a non-numeric `dealers` field
still evaluates (the model is total): `parseInt` gives `NaN`,
`NaN < maxDealers` is false, and the location is conservatively
classified unavailable. -/
theorem checkAvailability_nan_dealers (occ : List OccupiedCity) (d : JsNum)
    (loc : SelectedLocation) (r : OccupiedCity)
    (hfind : findOccupied occ loc.city loc.uf = some r)
    (hnan : parseIntJS r.dealers = .nan) :
    (checkAvailability occ d loc).currentDealers = .nan
    ∧ (checkAvailability occ d loc).isAvailable = false := by
  have hc : currentDealersOf occ loc.city loc.uf = .nan := by
    unfold currentDealersOf
    rw [hfind]
    exact hnan
  refine ⟨hc, ?_⟩
  show jsLt (currentDealersOf occ loc.city loc.uf) _ = false
  rw [hc, jsLt_nan_left]

/-- C9 witness: a registry entry with dealers `"a few"` makes its city
unavailable rather than raising. -/
theorem checkAvailability_nan_dealers_witness :
    (checkAvailability [⟨"Belém", "PA", "a few"⟩] (.int 5000)
        ⟨"Belém", "PA", .int 100000⟩).currentDealers = .nan
    ∧ (checkAvailability [⟨"Belém", "PA", "a few"⟩] (.int 5000)
        ⟨"Belém", "PA", .int 100000⟩).isAvailable = false :=
  checkAvailability_nan_dealers [⟨"Belém", "PA", "a few"⟩] (.int 5000)
    ⟨"Belém", "PA", .int 100000⟩ ⟨"Belém", "PA", "a few"⟩ (by decide) (by decide)

/-- C5: under an exclusivity rule that is active today (no `validUntil`,
or `validUntil >= today`) and a positive dealer count, `evaluate` returns
unavailable with the one generic reason — a result that is the same for
every active rule, so the expiry date is never exposed; with zero current
dealers the rule is ignored and the normal density rule decides. -/
theorem evaluate_exclusivity (today population currentDealers densityRule : Int)
    (r : ExclusivityRule) (hact : exclusivityActive today r = true) :
    (0 < currentDealers →
      evaluate today population currentDealers densityRule (some r)
        = ⟨false, none, currentDealers, none, some exclusivityReason⟩)
    ∧ (∀ r' : ExclusivityRule, exclusivityActive today r' = true →
        0 < currentDealers →
        evaluate today population currentDealers densityRule (some r)
          = evaluate today population currentDealers densityRule (some r'))
    ∧ evaluate today population 0 densityRule (some r)
        = evaluate today population 0 densityRule none := by
  refine ⟨?_, ?_, ?_⟩
  · intro hc
    simp [evaluate, hact, hc]
  · intro r' hact' hc
    simp [evaluate, hact, hact', hc]
  · simp [evaluate]

/-- C5 witness: today = day 10, rule valid until day 20 — 15 dealers are
blocked with the generic reason, two different active rules give
identical results, and 0 dealers fall through to the density rule. -/
theorem evaluate_exclusivity_witness :
    evaluate 10 100000 15 5000 (some ⟨some 20⟩)
        = ⟨false, none, 15, none, some exclusivityReason⟩
    ∧ evaluate 10 100000 15 5000 (some ⟨some 20⟩)
        = evaluate 10 100000 15 5000 (some ⟨none⟩)
    ∧ evaluate 10 100000 0 5000 (some ⟨some 20⟩)
        = evaluate 10 100000 0 5000 none :=
  ⟨(evaluate_exclusivity 10 100000 15 5000 ⟨some 20⟩ (by decide)).1 (by decide),
   (evaluate_exclusivity 10 100000 15 5000 ⟨some 20⟩ (by decide)).2.1
     ⟨none⟩ (by decide) (by decide),
   (evaluate_exclusivity 10 100000 0 5000 ⟨some 20⟩ (by decide)).2.2⟩

/-- The keys after an upsert: unchanged when the exact `(city, uf)` pair
is already present, otherwise extended by the new pair at the end. -/
theorem registryKeys_upsertOccupied (city uf dealers : String) :
    ∀ occ : List OccupiedCity,
      registryKeys (upsertOccupied city uf dealers occ)
        = if (city, uf) ∈ registryKeys occ then registryKeys occ
          else registryKeys occ ++ [(city, uf)] := by
  intro occ
  induction occ with
  | nil => simp [upsertOccupied, registryKeys]
  | cons head tail ih =>
    by_cases hm : head.city = city ∧ head.uf = uf
    · have hb : (head.city == city && head.uf == uf) = true := by
        simp [hm.1, hm.2]
      simp [upsertOccupied, hb, registryKeys, hm.1, hm.2]
    · have hb : (head.city == city && head.uf == uf) = false := by
        rcases not_and_or.mp hm with h | h <;> simp [h]
      have hpair : ¬((city, uf) = (head.city, head.uf)) := by
        intro hp
        exact hm ⟨(congrArg Prod.fst hp).symm, (congrArg Prod.snd hp).symm⟩
      have hiff : ((city, uf) ∈ registryKeys (head :: tail))
          ↔ (city, uf) ∈ registryKeys tail := by
        rw [show registryKeys (head :: tail)
            = (head.city, head.uf) :: registryKeys tail from rfl, List.mem_cons]
        exact or_iff_right hpair
      have hstep : upsertOccupied city uf dealers (head :: tail)
          = head :: upsertOccupied city uf dealers tail := by
        simp [upsertOccupied, hb]
      rw [hstep, show registryKeys (head :: upsertOccupied city uf dealers tail)
          = (head.city, head.uf) :: registryKeys (upsertOccupied city uf dealers tail)
          from rfl, ih]
      by_cases hmem : (city, uf) ∈ registryKeys tail
      · rw [if_pos hmem, if_pos (hiff.mpr hmem)]
        rfl
      · rw [if_neg hmem, if_neg (fun h => hmem (hiff.mp h))]
        rfl

/-- C7: the administrator actions preserve unique keying of the registry
by the exact `(city, uf)` pair — both the add/update handler and the
delete keep a duplicate-free registry duplicate-free — and adding with an
exactly matching `(city, uf)` rewrites that record's dealer count in
place, leaving the key sequence unchanged (no duplicate is appended). -/
theorem registry_unique_keys (occ : List OccupiedCity)
    (city uf dealers : String) (index : Nat) (h : UniqueKeys occ) :
    UniqueKeys (addOccupied occ city uf dealers)
    ∧ UniqueKeys (removeOccupied occ index)
    ∧ (city.isEmpty = false → uf.isEmpty = false → dealers.isEmpty = false →
        (city, uf) ∈ registryKeys occ →
        registryKeys (addOccupied occ city uf dealers) = registryKeys occ) := by
  refine ⟨?_, ?_, ?_⟩
  · unfold addOccupied
    split
    · exact h
    · unfold UniqueKeys
      rw [registryKeys_upsertOccupied]
      by_cases hmem : (city, uf) ∈ registryKeys occ
      · rwa [if_pos hmem]
      · rw [if_neg hmem]
        exact List.Nodup.append h (List.nodup_singleton _)
          (List.disjoint_singleton.mpr hmem)
  · have hsub : List.Sublist (registryKeys (removeOccupied occ index))
        (registryKeys occ) :=
      (List.eraseIdx_sublist occ index).map _
    exact List.Nodup.sublist hsub h
  · intro hc hu hd hmem
    unfold addOccupied
    rw [if_neg (by simp [hc, hu, hd]), registryKeys_upsertOccupied, if_pos hmem]

/-- C7 witness: on a two-record registry, updating the dealer count of
`("Natal", "RN")` keeps the keys unique and unchanged, and deleting
index 0 keeps them unique. -/
theorem registry_unique_keys_witness :
    UniqueKeys (addOccupied [⟨"Natal", "RN", "3"⟩, ⟨"Recife", "PE", "9"⟩] "Natal" "RN" "7")
    ∧ UniqueKeys (removeOccupied [⟨"Natal", "RN", "3"⟩, ⟨"Recife", "PE", "9"⟩] 0)
    ∧ registryKeys (addOccupied [⟨"Natal", "RN", "3"⟩, ⟨"Recife", "PE", "9"⟩] "Natal" "RN" "7")
        = registryKeys [⟨"Natal", "RN", "3"⟩, ⟨"Recife", "PE", "9"⟩] :=
  ⟨(registry_unique_keys _ "Natal" "RN" "7" 0 (by decide)).1,
   (registry_unique_keys _ "Natal" "RN" "7" 0 (by decide)).2.1,
   (registry_unique_keys _ "Natal" "RN" "7" 0 (by decide)).2.2
     (by decide) (by decide) (by decide) (by decide)⟩

/-- C8: the city-list loader is the prioritized source chain — a local
success wins outright (no API attempt, no backoff); otherwise the result
is the first successful API attempt among the three, and when every
source fails the loader sleeps the fixed 1000 ms backoff after each of
the three failed attempts and unconditionally lands on the hardcoded
static list. -/
theorem loadAllCities_source_chain :
    (∀ (cities : List City) (api : Nat → Option (List City)),
        loadAllCities (some cities) api = ([], cities))
    ∧ (∀ api : Nat → Option (List City),
        (loadAllCities none api).2
          = (firstSuccess [api 0, api 1, api 2]).getD fallbackCities)
    ∧ (∀ api : Nat → Option (List City),
        api 0 = none → api 1 = none → api 2 = none →
        loadAllCities none api = ([1000, 1000, 1000], fallbackCities)) := by
  refine ⟨fun _ _ => rfl, ?_, ?_⟩
  · intro api
    rcases h0 : api 0 with _ | c0 <;> rcases h1 : api 1 with _ | c1 <;>
      rcases h2 : api 2 with _ | c2 <;>
      simp [loadAllCities, apiLoop, maxRetries, h0, h1, h2, firstSuccess,
        List.findSome?]
  · intro api h0 h1 h2
    simp [loadAllCities, apiLoop, maxRetries, h0, h1, h2, retryBackoffMs]

/-- C8 witness: with the local source down and only the second API
attempt succeeding, its list wins; with everything down, the loader backs
off 1000 ms three times and serves the static fallback list. -/
theorem loadAllCities_source_chain_witness :
    (loadAllCities none
        (fun n => if n = 1 then some [⟨"Natal", "RN", 2408102⟩] else none)).2
      = [⟨"Natal", "RN", 2408102⟩]
    ∧ loadAllCities none (fun _ => none) = ([1000, 1000, 1000], fallbackCities) := by
  constructor
  · have := loadAllCities_source_chain.2.1
      (fun n => if n = 1 then some [⟨"Natal", "RN", 2408102⟩] else none)
    simpa [firstSuccess, List.findSome?] using this
  · exact loadAllCities_source_chain.2.2 (fun _ => none) rfl rfl rfl

/-- Reading the head entry of the counts object. -/
theorem lookupOr0_cons (k : String) (v : Int) (cs : List (String × Int))
    (key : String) :
    lookupOr0 ((k, v) :: cs) key = if k = key then v else lookupOr0 cs key := by
  by_cases h : k = key
  · rw [if_pos h]
    unfold lookupOr0
    rw [List.find?_cons_of_pos _ (by simp [h])]
  · rw [if_neg h]
    unfold lookupOr0
    rw [List.find?_cons_of_neg _ (by simp [h])]

/-- Bumping one key of the accumulator changes exactly that key's count. -/
theorem lookupOr0_addCount (key bumped : String) (d : Int) :
    ∀ cs : List (String × Int),
      lookupOr0 (addCount cs bumped d) key
        = if bumped = key then lookupOr0 cs key + d else lookupOr0 cs key := by
  intro cs
  induction cs with
  | nil =>
    show lookupOr0 [(bumped, d)] key = _
    rw [lookupOr0_cons]
    by_cases h : bumped = key <;> simp [lookupOr0, h]
  | cons hd tl ih =>
    obtain ⟨k, v⟩ := hd
    by_cases h1 : k = bumped
    · subst h1
      rw [show addCount ((k, v) :: tl) k d = (k, v + d) :: tl from by
        simp [addCount]]
      rw [lookupOr0_cons, lookupOr0_cons]
      by_cases h2 : k = key <;> simp [h2]
    · rw [show addCount ((k, v) :: tl) bumped d
          = (k, v) :: addCount tl bumped d from by simp [addCount, h1]]
      rw [lookupOr0_cons, lookupOr0_cons, ih]
      by_cases h2 : k = key
      · have hbk : bumped ≠ key := fun hh => h1 (h2.trans hh.symm)
        simp [h2, hbk]
      · simp [h2]

/-- Folding the registry into the counts object: each key ends up with
its initial count plus the summed contributions of the records that
lowercase onto it. -/
theorem lookupOr0_buildCounts_aux (key : String) :
    ∀ (items : List OccupiedCity) (cs : List (String × Int)),
      lookupOr0 (items.foldl
          (fun acc item =>
            addCount acc ("br-" ++ jsToLower item.uf) (dealersOr0 item.dealers)) cs) key
        = lookupOr0 cs key
          + ((items.filter (fun i => "br-" ++ jsToLower i.uf == key)).map
              (fun i => dealersOr0 i.dealers)).sum := by
  intro items
  induction items with
  | nil => simp
  | cons hd tl ih =>
    intro cs
    rw [List.foldl_cons, ih, lookupOr0_addCount]
    by_cases h : "br-" ++ jsToLower hd.uf = key
    · simp [List.filter_cons, h]
      omega
    · simp [List.filter_cons, h]

/-- C10: `getMapData` equals, entry for entry, the per-UF sums of
`parseInt(dealers) || 0`: it always emits exactly 27 pairs whose keys are
the fixed UF key list in order, each value is the sum over the records
whose lowercased UF lands on that key, and a record with a UF outside
the 27 known codes contributes to no entry. -/
theorem getMapData_sums (occ : List OccupiedCity) :
    getMapData occ
        = ufKeys.map (fun key => (key,
            ((occ.filter (fun i => "br-" ++ jsToLower i.uf == key)).map
              (fun i => dealersOr0 i.dealers)).sum))
    ∧ (getMapData occ).length = 27
    ∧ (getMapData occ).map Prod.fst = ufKeys
    ∧ (∀ extra : OccupiedCity, ("br-" ++ jsToLower extra.uf) ∉ ufKeys →
        getMapData (occ ++ [extra]) = getMapData occ) := by
  have main : ∀ occ' : List OccupiedCity, getMapData occ'
      = ufKeys.map (fun key => (key,
          ((occ'.filter (fun i => "br-" ++ jsToLower i.uf == key)).map
            (fun i => dealersOr0 i.dealers)).sum)) := by
    intro occ'
    unfold getMapData buildCounts
    refine List.map_congr_left ?_
    intro key _
    rw [lookupOr0_buildCounts_aux]
    simp [lookupOr0, List.find?]
  refine ⟨main occ, by rw [main occ]; rfl, by rw [main occ]; rfl, ?_⟩
  intro extra hx
  rw [main occ, main (occ ++ [extra])]
  refine List.map_congr_left ?_
  intro key hkey
  have hne : ("br-" ++ jsToLower extra.uf == key) = false := by
    simp only [beq_eq_false_iff_ne, ne_eq]
    intro hcontra
    exact hx (hcontra ▸ hkey)
  simp [List.filter_append, List.filter_cons, hne]

/-- C10 witness: a registry with `"SP"` and `"sp"` records folding onto
the same key, a non-numeric count treated as 0, and an unknown UF `"ZZ"`
contributing nowhere. -/
theorem getMapData_sums_witness :
    (getMapData [⟨"A", "SP", "3"⟩, ⟨"B", "sp", "2"⟩, ⟨"C", "RJ", "many"⟩]).length = 27
    ∧ getMapData ([⟨"A", "SP", "3"⟩, ⟨"B", "sp", "2"⟩, ⟨"C", "RJ", "many"⟩]
          ++ [⟨"D", "ZZ", "9"⟩])
        = getMapData [⟨"A", "SP", "3"⟩, ⟨"B", "sp", "2"⟩, ⟨"C", "RJ", "many"⟩]
    ∧ lookupOr0 (getMapData [⟨"A", "SP", "3"⟩, ⟨"B", "sp", "2"⟩, ⟨"C", "RJ", "many"⟩])
        "br-sp" = 5 :=
  ⟨(getMapData_sums _).2.1,
   (getMapData_sums _).2.2.2 ⟨"D", "ZZ", "9"⟩ (by decide),
   by decide⟩

end DealerCheck
